import Mathlib

/-!
Verification of the trustar-python repository against its specification.

Part 1 embeds the time-window pagination engine
(`get_time_based_page_generator`, src/trustar/utils.py, lines 97-130).
The Python generator is embedded as a fuel-indexed trace function: the
fuel bounds how many loop iterations we run; a run that is still looping
when fuel runs out reports `outOfFuel`, which is how the embedding
distinguishes non-termination from normal exhaustion (`done`) and from the
raised monotonicity exception (`raised`).  Each loop iteration performs
exactly one call to `get_page` and yields exactly one page, so the list of
emitted pages is also, element for element, the list of fetcher calls.

Part 2 (further down) embeds the batch fault-isolation method
`get_indicators_metadata_robust` (src/trustar/indicator_client.py,
lines 268-372) together with the import-time check that decides whether
that method can run at all.
-/

namespace TruStar

/-- Embedding of `DAY = 24 * 60 * 60 * 1000` (src/trustar/utils.py line 14),
the number of milliseconds in one day. -/
def DAY : Int := 24 * 60 * 60 * 1000

/-- How a run of the time-window generator ended within the given fuel:
`done` is normal exhaustion (the while condition became false or
`get_next_to_time` returned None), `raised` is the exception thrown at
utils.py lines 127-128 when the new to_time exceeds the previous one, and
`outOfFuel` means the loop was still running when the fuel bound was hit. -/
inductive GenOutcome where
  | done
  | raised
  | outOfFuel
deriving DecidableEq, Repr

/-- Embedding of the loop of `get_time_based_page_generator`
(src/trustar/utils.py lines 117-130), after the two defaults have been
resolved.  State: the current `to_time` as `Option Int` (`none` is the
Python None assigned at line 130 when `get_next_to_time` returned None).
Each iteration: test the while condition `to_time is not None and
from_time <= to_time`; call `get_page(from_time, to_time)`; yield the page;
compute `new_to_time`; if it is not None and exceeds `to_time`, raise;
otherwise set `to_time := new_to_time` and continue.  Timestamps are
Python ints, embedded as `Int`. -/
def timeGenRun {α : Type} (gp : Int → Int → α) (gn : α → Int → Option Int)
    (from_time : Int) : Nat → Option Int → List α × GenOutcome
  | _, none => ([], GenOutcome.done)
  | 0, some to_time =>
    if from_time ≤ to_time then ([], GenOutcome.outOfFuel) else ([], GenOutcome.done)
  | fuel + 1, some to_time =>
    if from_time ≤ to_time then
      let result := gp from_time to_time
      match gn result to_time with
      | none => ([result], GenOutcome.done)
      | some u =>
        if to_time < u then ([result], GenOutcome.raised)
        else
          let rest := timeGenRun gp gn from_time fuel (some u)
          (result :: rest.1, rest.2)
    else ([], GenOutcome.done)

/-- Embedding of `get_time_based_page_generator` itself
(src/trustar/utils.py lines 97-130): resolve the default for `to_time`
first (current time, line 110, passed here explicitly as `now` since the
embedding is pure), then the default for `from_time` (one day before
`to_time`, line 114), then run the loop. -/
def get_time_based_page_generator {α : Type} (gp : Int → Int → α)
    (gn : α → Int → Option Int) (from_opt to_opt : Option Int) (now : Int)
    (fuel : Nat) : List α × GenOutcome :=
  let to_time := match to_opt with
    | none => now
    | some t => t
  let from_time := match from_opt with
    | none => to_time - DAY
    | some f => f
  timeGenRun gp gn from_time fuel (some to_time)

/-- A page fetcher that records its arguments, so a trace shows the exact
query windows issued. -/
def recordPage (f t : Int) : Int × Int := (f, t)

/-- A next-to-time function that always signals exhaustion. -/
def gnNone : Int × Int → Int → Option Int := fun _ _ => none

/-- A next-to-time function that always steps the window back by 100
milliseconds, as in the termination test of the spec. -/
def stepBack100 : Int × Int → Int → Option Int := fun _ t => some (t - 100)

/-- A next-to-time function that always increases the bound, violating the
monotonicity invariant on every page. -/
def stepUp1 : Int × Int → Int → Option Int := fun _ t => some (t + 1)

/-- A next-to-time function that always returns the previous to_time
unchanged. -/
def stepSame : Int × Int → Int → Option Int := fun _ t => some t

/-!
Part 2: the batch fault-isolation method `get_indicators_metadata_robust`
(src/trustar/indicator_client.py, lines 268-372).

The method cannot run.  Two independent defects are embedded here:

1.  Line 372 of indicator_client.py reads `return md_list, fails_list`
    indented at 4 spaces, the indentation of the class suite of
    `class IndicatorClient`, while the body of the method is indented at
    8 spaces.  The dedent therefore ends the method body, and the
    `return` statement sits directly in the class suite.  CPython rejects
    a `return` outside a function at compile time, so importing the
    module raises SyntaxError (message: "return" outside function,
    line 372) and no method of the module can ever be called.  This
    compile-time rule is embedded below as `moduleCompiles` over a
    transcription of the statement layout of the module.

2.  Even under the counterfactual that the module imported, the first
    statement of the method body (line 305)
    `indicators = [ Indicator.from_dict( { Indicator.VALUE_API_PARAM :
    i.value, Indicator.TYPE_API_PARAM : i.type } ) ]` is a one-element
    list display, not a comprehension, so it evaluates the name `i`.
    Because line 341 (`for i in big_list_of_indicators :`) assigns `i`,
    the compiler classifies `i` as a local variable of the method, and
    reading it before any assignment raises UnboundLocalError (a
    NameError) before the `indicators` argument is even examined.  Line
    308 would fail the same way on the misspelt name `idicators`.  This
    layer is embedded as `robust_body` with an explicit table of the
    names bound at that program point.

So every call path ends in an exception; the method never returns the
documented (metadata, failures) pair.
-/

/-- A statement at class-suite level of a Python module, as far as the
compile-time rule "return outside function" is concerned: a `return`
statement, a `def` with its suite (any `return` inside it is legal, so its
contents need no further detail), or any other statement. -/
inductive ClassStmt where
  | ret
  | defBlock
  | other
deriving DecidableEq, Repr

/-- A module-level statement: a `class` with its suite, or any other
statement (import, assignment, ...). -/
inductive ModStmt where
  | classBlock (body : List ClassStmt)
  | other
deriving DecidableEq, Repr

/-- CPython compile-time legality of one class-suite statement: a `return`
directly in a class suite is a SyntaxError; a `def` is legal (returns
inside its body are inside a function); anything else is legal. -/
def classStmtLegal : ClassStmt → Bool
  | ClassStmt.ret => false
  | ClassStmt.defBlock => true
  | ClassStmt.other => true

/-- CPython compile-time legality of one module-level statement. -/
def modStmtLegal : ModStmt → Bool
  | ModStmt.classBlock body => body.all classStmtLegal
  | ModStmt.other => true

/-- A module compiles iff every statement passes the check. -/
def moduleCompiles (m : List ModStmt) : Bool := m.all modStmtLegal

/-- The class suite of `class IndicatorClient` (src/trustar/indicator_client.py
lines 21-547), transcribed statement by statement.  Twelve method
definitions come first: submit_indicators, get_indicators,
_get_indicators_page_generator, get_indicators_page, search_indicators,
_search_indicators_page_generator, search_indicators_page,
get_related_indicators, get_indicators_for_report, get_indicator_metadata,
get_indicators_metadata, get_indicators_metadata_robust.  Then line 372:
`return md_list, fails_list` at class-suite indentation (4 spaces).  Then
eleven more method definitions: get_indicator_details, get_whitelist,
add_terms_to_whitelist, delete_indicator_from_whitelist,
get_community_trends, get_whitelist_page, get_indicators_for_report_page,
get_related_indicators_page, _get_indicators_for_report_page_generator,
_get_related_indicators_page_generator, _get_whitelist_page_generator. -/
def indicatorClientClassSuite : List ClassStmt :=
  List.replicate 12 ClassStmt.defBlock
    ++ [ClassStmt.ret]
    ++ List.replicate 11 ClassStmt.defBlock

/-- The statement layout of the module src/trustar/indicator_client.py:
a prelude of imports and assignments (lines 1-18, none of which contains a
`return`, abstracted as `other` statements) followed by
`class IndicatorClient` with the suite above. -/
def indicator_client_py : List ModStmt :=
  [ModStmt.other, ModStmt.other,
   ModStmt.classBlock indicatorClientClassSuite]

/-- The Python exceptions the embedded code can raise, each carrying the
source line it is raised at.  `nameError` also covers UnboundLocalError,
its subclass. -/
inductive PyError where
  | syntaxError (line : Nat)
  | nameError (name : String) (line : Nat)
deriving DecidableEq, Repr

/-- Importing src/trustar/indicator_client.py: CPython compiles the module
first; the compile-time check fails at line 372 (`return` in the class
suite), so the import raises SyntaxError and nothing in the module becomes
callable. -/
def importIndicatorClient : Except PyError Unit :=
  cond (moduleCompiles indicator_client_py)
    (Except.ok ())
    (Except.error (PyError.syntaxError 372))

/-- Embedding of an Indicator (src/trustar/models/indicator.py): the
batch-isolation claims concern only the identity value and the secondary
key, which are the `value` and `type` attributes; the method under
study discards every other attribute (comment at indicator_client.py line
304), so the embedding keeps exactly these two. -/
structure Indicator where
  value : String
  type : Option String
deriving DecidableEq, Repr

/-- The names bound in the local scope of `get_indicators_metadata_robust`
when its first statement (line 305) executes: the two parameters (line
268) and the constant assigned at line 300.  The name `i` is classified
local (it is assigned by the `for` at line 341) but is unbound at line
305; the name `idicators` (line 308) is bound nowhere at all. -/
def robustLocalNames : List String :=
  ["self", "indicators", "MAX_N_INDICS_PER_LIST_SUBMITTED_FOR_METADATA"]

/-- Python name lookup at a given source line: evaluating a name that is
not bound raises NameError (UnboundLocalError when the name is a local
read before assignment, as with `i` here). -/
def lookupName (env : List String) (n : String) (line : Nat) :
    Except PyError Unit :=
  cond (env.contains n)
    (Except.ok ())
    (Except.error (PyError.nameError n line))

/-- Embedding of the body of `get_indicators_metadata_robust`
(indicator_client.py lines 300-372) under the counterfactual that the
module imported.  Execution order: line 300 binds the batch-size constant
(already in `robustLocalNames`); line 305 reads the unbound local `i`
inside a one-element list display and raises; line 308 (never reached)
would read the unbound name `idicators`.  Everything after the first
failing lookup is dead code, so the rest of the body (lines 309-372) has
no reachable semantics to embed; the final `pure` records what a
successful fall-through would have to produce and is unreachable.
`submit_batch` stands for the bound method `get_indicators_metadata`
that the body would have submitted chunks to (line 355); it is a
parameter so that theorems can quantify over every submission
behaviour (`none` = the batch call fails as a unit). -/
def robust_body (submit_batch : List Indicator → Option (List Indicator))
    (indicators : List Indicator) :
    Except PyError (List Indicator × List Indicator) := do
  let _ ← lookupName robustLocalNames "i" 305
  let _ ← lookupName robustLocalNames "idicators" 308
  pure ([], [])

/-- Embedding of a call to `IndicatorClient.get_indicators_metadata_robust`
(src/trustar/indicator_client.py lines 268-372): the module must be
imported before the method can run, and the import raises SyntaxError
(line 372); were the import to succeed, the body would raise
UnboundLocalError at line 305 (see `robust_body`). -/
def get_indicators_metadata_robust
    (submit_batch : List Indicator → Option (List Indicator))
    (indicators : List Indicator) :
    Except PyError (List Indicator × List Indicator) := do
  let _ ← importIndicatorClient
  robust_body submit_batch indicators

/-!
Helper lemmas: one-step unfoldings of `timeGenRun`, matching the four ways
an iteration of the while loop at utils.py lines 117-130 can go, plus two
facts proved by induction on fuel.
-/

/-- When the while condition is false at entry (`from_time > to_time`), the
loop body never runs: no page, normal termination, whatever the fuel. -/
lemma timeGenRun_stop {α : Type} {gp : Int → Int → α} {gn : α → Int → Option Int}
    {from_time to_time : Int} {fuel : Nat} (h : ¬ from_time ≤ to_time) :
    timeGenRun gp gn from_time fuel (some to_time) = ([], GenOutcome.done) := by
  cases fuel with
  | zero => simp [timeGenRun, h]
  | succ n => simp [timeGenRun, h]

/-- When `get_next_to_time` returns None, the page is yielded and the next
loop test fails on `to_time is not None`: normal termination. -/
lemma timeGenRun_none_step {α : Type} {gp : Int → Int → α} {gn : α → Int → Option Int}
    {from_time to_time : Int} {fuel : Nat} (h : from_time ≤ to_time)
    (hgn : gn (gp from_time to_time) to_time = none) :
    timeGenRun gp gn from_time (fuel + 1) (some to_time)
      = ([gp from_time to_time], GenOutcome.done) := by
  simp [timeGenRun, h, hgn]

/-- When `get_next_to_time` returns a value strictly above the current
`to_time`, the page is yielded and then the exception of utils.py lines
127-128 is raised. -/
lemma timeGenRun_raise_step {α : Type} {gp : Int → Int → α} {gn : α → Int → Option Int}
    {from_time to_time u : Int} {fuel : Nat} (h : from_time ≤ to_time)
    (hgn : gn (gp from_time to_time) to_time = some u) (hlt : to_time < u) :
    timeGenRun gp gn from_time (fuel + 1) (some to_time)
      = ([gp from_time to_time], GenOutcome.raised) := by
  simp [timeGenRun, h, hgn, hlt]

/-- When `get_next_to_time` returns a value not above the current
`to_time`, the page is yielded and the loop continues with the new bound. -/
lemma timeGenRun_cont_step {α : Type} {gp : Int → Int → α} {gn : α → Int → Option Int}
    {from_time to_time u : Int} {fuel : Nat} (h : from_time ≤ to_time)
    (hgn : gn (gp from_time to_time) to_time = some u) (hle : u ≤ to_time) :
    timeGenRun gp gn from_time (fuel + 1) (some to_time)
      = (gp from_time to_time :: (timeGenRun gp gn from_time fuel (some u)).1,
         (timeGenRun gp gn from_time fuel (some u)).2) := by
  simp [timeGenRun, h, hgn, not_lt.mpr hle]

/-- With the while condition true and fuel left, at least one page comes
out: the call to `get_page` precedes every exit from the loop body. -/
lemma timeGenRun_ne_nil {α : Type} {gp : Int → Int → α} {gn : α → Int → Option Int}
    {from_time to_time : Int} {fuel : Nat} (h : from_time ≤ to_time) :
    (timeGenRun gp gn from_time (fuel + 1) (some to_time)).1 ≠ [] := by
  rcases hgn : gn (gp from_time to_time) to_time with _ | u
  · rw [timeGenRun_none_step h hgn]; simp
  · rcases lt_or_ge to_time u with hlt | hge
    · rw [timeGenRun_raise_step h hgn hlt]; simp
    · rw [timeGenRun_cont_step h hgn hge]; simp

/-- With the while condition true, the first emitted page is the result of
`get_page(from_time, to_time)` on the entry window, in every branch. -/
lemma timeGenRun_head {α : Type} {gp : Int → Int → α} {gn : α → Int → Option Int}
    {from_time to_time : Int} {fuel : Nat} (h : from_time ≤ to_time) :
    (timeGenRun gp gn from_time (fuel + 1) (some to_time)).1.head?
      = some (gp from_time to_time) := by
  rcases hgn : gn (gp from_time to_time) to_time with _ | u
  · rw [timeGenRun_none_step h hgn]; simp
  · rcases lt_or_ge to_time u with hlt | hge
    · rw [timeGenRun_raise_step h hgn hlt]; simp
    · rw [timeGenRun_cont_step h hgn hge]; simp

/-- A next-to-time function that always hands back the previous bound
unchanged keeps the while condition true for ever: the run consumes all
its fuel, emits one page per fuel unit, and never reaches `done` or
`raised`.  Induction on fuel. -/
lemma timeGenRun_const_runs_forever {α : Type} {gp : Int → Int → α}
    {gn : α → Int → Option Int} (hgn : ∀ r s, gn r s = some s) {from_time : Int} :
    ∀ (fuel : Nat) (to_time : Int), from_time ≤ to_time →
      (timeGenRun gp gn from_time fuel (some to_time)).1.length = fuel
      ∧ (timeGenRun gp gn from_time fuel (some to_time)).2 = GenOutcome.outOfFuel := by
  intro fuel
  induction fuel with
  | zero => intro tt h; simp [timeGenRun, h]
  | succ n ih =>
    intro tt h
    rw [timeGenRun_cont_step h (hgn _ _) (le_refl tt)]
    have hn := ih tt h
    simp [hn.1, hn.2]

/-- If a run ends in the raised exception, some reached window had its
next bound computed strictly above its own `to_time`: the exception is
raised only at the check of utils.py lines 125-128.  Induction on fuel. -/
lemma timeGenRun_raised_has_violation {α : Type} {gp : Int → Int → α}
    {gn : α → Int → Option Int} {from_time : Int} :
    ∀ (fuel : Nat) (to_time : Int),
      (timeGenRun gp gn from_time fuel (some to_time)).2 = GenOutcome.raised →
      ∃ s u, from_time ≤ s ∧ s ≤ to_time ∧ gn (gp from_time s) s = some u ∧ s < u := by
  intro fuel
  induction fuel with
  | zero =>
    intro tt hraise
    by_cases h : from_time ≤ tt <;> simp [timeGenRun, h] at hraise
  | succ n ih =>
    intro tt hraise
    by_cases h : from_time ≤ tt
    · rcases hgn : gn (gp from_time tt) tt with _ | u
      · rw [timeGenRun_none_step h hgn] at hraise; simp at hraise
      · rcases lt_or_ge tt u with hlt | hge
        · exact ⟨tt, u, h, le_refl tt, hgn, hlt⟩
        · rw [timeGenRun_cont_step h hgn hge] at hraise
          simp at hraise
          rcases ih u hraise with ⟨s, v, h1, h2, h3, h4⟩
          exact ⟨s, v, h1, le_trans h2 hge, h3, h4⟩
    · rw [timeGenRun_stop h] at hraise; simp at hraise

/-- C1: the claim states that `get_indicators_metadata_robust` returns a
partition of the deduplicated input into succeeded items and isolated
failures, for every input list and every batch-submission behaviour.  The
code never returns anything: importing src/trustar/indicator_client.py
raises SyntaxError (the `return` at line 372 sits at class-suite
indentation, outside the method), so every call, whatever the submission
behaviour and the input, ends in that error and no partition is ever
produced.  This theorem evaluates the embedded code and exhibits that
uniform failure. -/
theorem c1_robust_never_returns_partition :
    ∀ (submit_batch : List Indicator → Option (List Indicator))
      (indicators : List Indicator),
      get_indicators_metadata_robust submit_batch indicators
        = Except.error (PyError.syntaxError 372) :=
  fun _ _ => rfl

/-- C2: for a next-to-time function that, on a page, returns a value
strictly greater than the to_time used for the previous query, the
generator raises the monotonicity exception (utils.py lines 125-128) right
after yielding that page: from the offending window on, exactly one page
is emitted and none after it, and the outcome is the raised error, which
is distinct from normal exhaustion. -/
theorem c2_monotonicity_violation_raises {α : Type} (gp : Int → Int → α)
    (gn : α → Int → Option Int) (from_time to_time u : Int) (fuel : Nat)
    (h : from_time ≤ to_time) (hgn : gn (gp from_time to_time) to_time = some u)
    (hgt : to_time < u) :
    timeGenRun gp gn from_time (fuel + 1) (some to_time)
        = ([gp from_time to_time], GenOutcome.raised)
      ∧ GenOutcome.raised ≠ GenOutcome.done :=
  ⟨timeGenRun_raise_step h hgn hgt, by simp⟩

/-- Witness for C2 at a concrete input: window (0, 7), next-to-time
function that always answers previous + 1. -/
theorem c2_witness :
    timeGenRun recordPage stepUp1 0 5 (some 7)
        = ([recordPage 0 7], GenOutcome.raised)
      ∧ GenOutcome.raised ≠ GenOutcome.done :=
  c2_monotonicity_violation_raises recordPage stepUp1 0 7 8 4 (by decide) rfl (by decide)

/-- C3 counterexample: with `from_time = 100`, `to_time = 1000` and a
next-to-time function always answering previous - 100, the claim says the
generator terminates after exactly 9 pages.  Evaluating the embedded code
(with ample fuel) shows the run terminates normally after 10 pages, not 9:
the windows are queried at to_time 1000, 900, ..., 200, 100 — ten values,
because the loop condition `from_time <= to_time` still holds at
to_time = 100. -/
theorem c3_counterexample :
    (timeGenRun recordPage stepBack100 100 20 (some 1000)).1.length = 10
    ∧ (timeGenRun recordPage stepBack100 100 20 (some 1000)).1.length ≠ 9
    ∧ (timeGenRun recordPage stepBack100 100 20 (some 1000)).2 = GenOutcome.done := by
  decide

/-- C3 (amended): with `from_time = 100`, `to_time = 1000` and a
next-to-time function always answering previous - 100, the generator
terminates normally after yielding exactly 10 pages, whose query to_time
values are 1000, 900, ..., 100.  The trace is the same for every fuel
bound of at least 10, which is how the fuel embedding states genuine
termination. -/
theorem c3_amended_ten_pages : ∀ k : Nat,
    timeGenRun recordPage stepBack100 100 (k + 10) (some 1000) =
      ([(100, 1000), (100, 900), (100, 800), (100, 700), (100, 600),
        (100, 500), (100, 400), (100, 300), (100, 200), (100, 100)],
       GenOutcome.done) := by
  intro k
  cases k with
  | zero => rfl
  | succ n => rfl

/-- C4: the claim states that a failing chunk of size one is isolated and
a larger failing chunk is split into two equal halves, each processed
independently.  The code never submits, splits, or isolates anything:
the result of a call is the import-time SyntaxError, identical for every
submission behaviour (first conjunct: the outcome does not depend on the
submission function at all, so no chunk is ever submitted) and never a
success (second conjunct). -/
theorem c4_no_chunk_is_ever_bisected :
    ∀ (submit1 submit2 : List Indicator → Option (List Indicator))
      (indicators : List Indicator),
      get_indicators_metadata_robust submit1 indicators
          = get_indicators_metadata_robust submit2 indicators
      ∧ get_indicators_metadata_robust submit1 indicators
          = Except.error (PyError.syntaxError 372) :=
  fun _ _ _ => ⟨rfl, rfl⟩

/-- C5: the claim states the batch isolation never raises and always
returns a complete partition, with an immediate empty outcome on empty
input.  The code raises on every call, including the empty input: the
module import raises SyntaxError (line 372), and even under the
counterfactual that the module imported, the body raises
UnboundLocalError at its first statement (line 305, the unbound name `i`),
before looking at the input (second conjunct, on the body embedding). -/
theorem c5_robust_raises_even_on_empty_input :
    get_indicators_metadata_robust (fun l => some l) []
        = Except.error (PyError.syntaxError 372)
    ∧ robust_body (fun l => some l) []
        = Except.error (PyError.nameError "i" 305) :=
  ⟨rfl, rfl⟩

/-- C6: the claim states that the input is deduplicated by value and
secondary key before any submission, merged duplicates appearing exactly
once in the returned partition.  No deduplication can ever be observed:
on the two inputs of interest — the same value twice with the same type,
and the same value with two different types — the call ends in the
import-time SyntaxError and returns no partition at all. -/
theorem c6_no_dedup_ever_happens :
    get_indicators_metadata_robust (fun l => some l)
        [⟨"evil.com", some "URL"⟩, ⟨"evil.com", some "URL"⟩]
        = Except.error (PyError.syntaxError 372)
    ∧ get_indicators_metadata_robust (fun l => some l)
        [⟨"1.2.3.4", some "IP"⟩, ⟨"1.2.3.4", none⟩]
        = Except.error (PyError.syntaxError 372) :=
  ⟨rfl, rfl⟩

/-- C7: starting from a window whose while condition holds, the generator
terminates normally right after the next page — emitting that one page
and calling the fetcher exactly once more — if and only if the computed
new to_time is absent or strictly below `from_time`.  In every other case
(a new bound still in the window) a further fetch happens, and a bound
above the window raises instead of terminating normally. -/
theorem c7_normal_termination_iff {α : Type} (gp : Int → Int → α)
    (gn : α → Int → Option Int) (from_time to_time : Int) (fuel : Nat)
    (h : from_time ≤ to_time) :
    timeGenRun gp gn from_time (fuel + 2) (some to_time)
        = ([gp from_time to_time], GenOutcome.done)
      ↔ (gn (gp from_time to_time) to_time = none
         ∨ ∃ u, gn (gp from_time to_time) to_time = some u ∧ u < from_time) := by
  constructor
  · intro heq
    rcases hgn : gn (gp from_time to_time) to_time with _ | u
    · exact Or.inl rfl
    · refine Or.inr ⟨u, rfl, ?_⟩
      by_contra hnot
      push_neg at hnot
      rcases lt_or_ge to_time u with hlt | hge
      · rw [timeGenRun_raise_step h hgn hlt] at heq
        simp at heq
      · rw [timeGenRun_cont_step h hgn hge] at heq
        have hnil : (timeGenRun gp gn from_time (fuel + 1) (some u)).1 = [] := by
          have := congrArg Prod.fst heq
          simpa using this
        exact timeGenRun_ne_nil hnot hnil
  · intro hcase
    rcases hcase with hnone | ⟨u, hu, hlt⟩
    · exact timeGenRun_none_step h hnone
    · have hle : u ≤ to_time := le_trans (le_of_lt hlt) h
      rw [timeGenRun_cont_step h hu hle, timeGenRun_stop (not_le.mpr hlt)]

/-- Witness for C7 at a concrete input: window (0, 5) with a next-to-time
function that signals exhaustion at once; exactly one page, normal end. -/
theorem c7_witness :
    timeGenRun recordPage gnNone 0 3 (some 5) = ([recordPage 0 5], GenOutcome.done) :=
  (c7_normal_termination_iff recordPage gnNone 0 5 1 (by decide)).mpr (Or.inl rfl)

/-- C8: the defaults of utils.py lines 108-114.  With `to_time` absent it
becomes the current time `now`; with `from_time` absent it becomes the
resolved `to_time` minus one day in milliseconds; explicitly supplied
bounds are used unchanged.  Stated on the first query the generator
issues: its window is exactly the resolved pair in all four supply
patterns. -/
theorem c8_defaults {α : Type} (gp : Int → Int → α) (gn : α → Int → Option Int)
    (now f t : Int) (fuel : Nat) :
    (get_time_based_page_generator gp gn none none now (fuel + 1)).1.head?
        = some (gp (now - DAY) now)
    ∧ (f ≤ now →
        (get_time_based_page_generator gp gn (some f) none now (fuel + 1)).1.head?
          = some (gp f now))
    ∧ (get_time_based_page_generator gp gn none (some t) now (fuel + 1)).1.head?
        = some (gp (t - DAY) t)
    ∧ (f ≤ t →
        (get_time_based_page_generator gp gn (some f) (some t) now (fuel + 1)).1.head?
          = some (gp f t)) := by
  have hday : (0 : Int) ≤ DAY := by decide
  refine ⟨?_, fun hf => ?_, ?_, fun hf => ?_⟩
  · exact timeGenRun_head (show now - DAY ≤ now by omega)
  · exact timeGenRun_head hf
  · exact timeGenRun_head (show t - DAY ≤ t by omega)
  · exact timeGenRun_head hf

/-- Witness for C8 at concrete inputs: now = 5, explicit from_time = 1,
explicit to_time = 3, in all four supply patterns. -/
theorem c8_witness :
    (get_time_based_page_generator recordPage gnNone none none 5 3).1.head?
        = some (recordPage (5 - DAY) 5)
    ∧ (get_time_based_page_generator recordPage gnNone (some 1) none 5 3).1.head?
        = some (recordPage 1 5)
    ∧ (get_time_based_page_generator recordPage gnNone none (some 3) 5 3).1.head?
        = some (recordPage (3 - DAY) 3)
    ∧ (get_time_based_page_generator recordPage gnNone (some 1) (some 3) 5 3).1.head?
        = some (recordPage 1 3) :=
  ⟨(c8_defaults recordPage gnNone 5 1 3 2).1,
   (c8_defaults recordPage gnNone 5 1 3 2).2.1 (by decide),
   (c8_defaults recordPage gnNone 5 1 3 2).2.2.1,
   (c8_defaults recordPage gnNone 5 1 3 2).2.2.2 (by decide)⟩

/-- C9: invoked with explicit bounds such that `from_time > to_time`, the
generator yields no pages and calls the fetcher zero times (each call
yields exactly one page in the embedding, so an empty trace is zero
calls), ending in normal exhaustion, for any fuel. -/
theorem c9_inverted_window_empty {α : Type} (gp : Int → Int → α)
    (gn : α → Int → Option Int) (f t now : Int) (fuel : Nat) (h : t < f) :
    get_time_based_page_generator gp gn (some f) (some t) now fuel
      = ([], GenOutcome.done) :=
  timeGenRun_stop (not_le.mpr h)

/-- Witness for C9 at a concrete input: from_time = 10 above to_time = 4. -/
theorem c9_witness :
    get_time_based_page_generator recordPage gnNone (some 10) (some 4) 999 6
      = ([], GenOutcome.done) :=
  c9_inverted_window_empty recordPage gnNone 10 4 999 6 (by decide)

/-- C10: the monotonicity error is raised if and only if a computed
new to_time is present and strictly greater than the current to_time.
Four parts: (1) a strictly greater bound raises immediately after the
page; (2) a bound exactly equal to the current to_time is accepted and
the next query runs with the unchanged window; (3) a next-to-time
function that always returns the previous to_time keeps the generator
running for ever — the run consumes any amount of fuel without reaching
termination or error, emitting one page per iteration; (4) conversely, a
raised run contains a reached window whose computed bound strictly
exceeded it, so the error occurs only under the claimed condition. -/
theorem c10_raise_iff_strict_increase {α : Type} (gp : Int → Int → α)
    (gn : α → Int → Option Int) (from_time to_time : Int) (fuel : Nat) :
    (∀ u, from_time ≤ to_time → gn (gp from_time to_time) to_time = some u →
      to_time < u →
      timeGenRun gp gn from_time (fuel + 1) (some to_time)
        = ([gp from_time to_time], GenOutcome.raised))
    ∧ (from_time ≤ to_time →
        gn (gp from_time to_time) to_time = some to_time →
        timeGenRun gp gn from_time (fuel + 1) (some to_time)
          = (gp from_time to_time
               :: (timeGenRun gp gn from_time fuel (some to_time)).1,
             (timeGenRun gp gn from_time fuel (some to_time)).2))
    ∧ ((∀ r s, gn r s = some s) → from_time ≤ to_time →
        (timeGenRun gp gn from_time fuel (some to_time)).1.length = fuel
        ∧ (timeGenRun gp gn from_time fuel (some to_time)).2
            = GenOutcome.outOfFuel)
    ∧ ((timeGenRun gp gn from_time fuel (some to_time)).2 = GenOutcome.raised →
        ∃ s u, from_time ≤ s ∧ s ≤ to_time
          ∧ gn (gp from_time s) s = some u ∧ s < u) :=
  ⟨fun _ h hgn hlt => timeGenRun_raise_step h hgn hlt,
   fun h hgn => timeGenRun_cont_step h hgn (le_refl to_time),
   fun hgn h => timeGenRun_const_runs_forever hgn fuel to_time h,
   fun hr => timeGenRun_raised_has_violation fuel to_time hr⟩

/-- Witness for C10 at concrete inputs: window (0, 7); the increasing
function for parts 1 and 4, the constant function for parts 2 and 3. -/
theorem c10_witness :
    timeGenRun recordPage stepUp1 0 4 (some 7)
        = ([recordPage 0 7], GenOutcome.raised)
    ∧ timeGenRun recordPage stepSame 0 4 (some 7)
        = (recordPage 0 7 :: (timeGenRun recordPage stepSame 0 3 (some 7)).1,
           (timeGenRun recordPage stepSame 0 3 (some 7)).2)
    ∧ ((timeGenRun recordPage stepSame 0 3 (some 7)).1.length = 3
        ∧ (timeGenRun recordPage stepSame 0 3 (some 7)).2 = GenOutcome.outOfFuel)
    ∧ (∃ s u, (0 : Int) ≤ s ∧ s ≤ 7
        ∧ stepUp1 (recordPage 0 s) s = some u ∧ s < u) :=
  ⟨(c10_raise_iff_strict_increase recordPage stepUp1 0 7 3).1 8 (by decide) rfl (by decide),
   (c10_raise_iff_strict_increase recordPage stepSame 0 7 3).2.1 (by decide) rfl,
   (c10_raise_iff_strict_increase recordPage stepSame 0 7 3).2.2.1 (fun _ _ => rfl) (by decide),
   (c10_raise_iff_strict_increase recordPage stepUp1 0 7 3).2.2.2 (by decide)⟩

end TruStar
